import Mathlib

/-!
Verification of the Svalinn MVP policy gate (`src/tools/mvp/svalinn_gate.py`)
against its natural-language specification.

The Python source is shallowly embedded below.  Pure code (the DSSE
pre-authentication encoding, the bundle sanity checks, the policy evaluation
pipeline) is translated directly.  The genuinely external pieces — the
`base64` codec, UTF-8 decoding, `json.loads`, and the raw signature check
performed by the spawned `openssl` process — are abstracted as a record of
oracle functions (`PyEnv`); each oracle returns `Option`/`Bool` so that a
`none`/`false` result models the corresponding Python exception or non-zero
exit status.  Python exceptions that are *not* `GateError` (and which the
program's `main` does not catch) are modelled by the `EvalResult.uncaught`
constructor, tagged with the exception class name.  Python `set` values are
modelled as duplicate-free lists in first-insertion order; CPython's actual
set iteration order is unspecified, and no theorem below depends on the
order, only on membership, cardinality and the sorted renderings that the
program itself produces.
-/

set_option autoImplicit false

namespace Svalinn

/-- Standard UTF-8 encoding of one character (the byte sequence Python's
`str.encode("utf-8")` produces for it). -/
def utf8EncodeCharBytes (c : Char) : List UInt8 :=
  let v := c.toNat
  if v < 0x80 then
    [UInt8.ofNat v]
  else if v < 0x800 then
    [UInt8.ofNat (0xC0 ||| (v >>> 6)),
     UInt8.ofNat (0x80 ||| (v &&& 0x3F))]
  else if v < 0x10000 then
    [UInt8.ofNat (0xE0 ||| (v >>> 12)),
     UInt8.ofNat (0x80 ||| ((v >>> 6) &&& 0x3F)),
     UInt8.ofNat (0x80 ||| (v &&& 0x3F))]
  else
    [UInt8.ofNat (0xF0 ||| (v >>> 18)),
     UInt8.ofNat (0x80 ||| ((v >>> 12) &&& 0x3F)),
     UInt8.ofNat (0x80 ||| ((v >>> 6) &&& 0x3F)),
     UInt8.ofNat (0x80 ||| (v &&& 0x3F))]

/-- UTF-8 bytes of a string, as a list (Python's `s.encode("utf-8")`). -/
def utf8Bytes (s : String) : List UInt8 := s.data.flatMap utf8EncodeCharBytes

/-- Latin-style byte-to-char rendering used only to build concrete oracle
environments for witnesses (inverse of `utf8Bytes` on ASCII data). -/
def bytesToStr (bs : List UInt8) : String := String.mk (bs.map (fun u => Char.ofNat u.toNat))

/-- Python `set.add` on a duplicate-free list: append the element if absent. -/
def setAdd {α : Type} [DecidableEq α] (s : List α) (x : α) : List α :=
  if x ∈ s then s else s ++ [x]

/-- Python `set(xs)` modelled as the duplicate-free list of elements of `xs`
in first-occurrence order. -/
def distinctList {α : Type} [DecidableEq α] (xs : List α) : List α :=
  xs.foldl setAdd []

/-- Lexicographic strict order on code-point lists (the order Python string
comparison uses). -/
def charListLt : List Char → List Char → Bool
  | [], [] => false
  | [], _ :: _ => true
  | _ :: _, [] => false
  | c :: cs, d :: ds =>
    if c.toNat < d.toNat then true
    else if d.toNat < c.toNat then false
    else charListLt cs ds

/-- Python's `<` on strings: lexicographic comparison of code points. -/
def strLt (a b : String) : Bool := charListLt a.data b.data

/-- Insert a string into a (sorted) list, by the `<` order Python `sorted` uses. -/
def insertStr (x : String) : List String → List String
  | [] => [x]
  | y :: ys => if strLt x y then x :: y :: ys else y :: insertStr x ys

/-- Python `sorted` on a duplicate-free list of strings (insertion sort by `<`). -/
def sortStrings (xs : List String) : List String := xs.foldr insertStr []

/-- Python `sorted` applied to a duplicate-free list that may contain `None`
(`none`) next to strings: comparing `None` with `str` raises `TypeError`,
modelled by returning `none`.  `sorted` of the singleton `{None}` succeeds
because no comparison is performed. -/
def pySortedOptStr (xs : List (Option String)) : Option (List (Option String)) :=
  if (none : Option String) ∈ xs then
    if xs.length ≤ 1 then some [(none : Option String)] else none
  else
    some ((sortStrings (xs.filterMap id)).map some)

/-! ## Data model (section 3 of the spec, shapes taken from the source) -/

/-- One element of a statement's `subject` list.  Only
`subject.get("digest", {}).get("sha256")` is ever read by the source, so the
subject is modelled by that single optional field (`none` = the `digest` or
`sha256` key is absent). -/
structure Subject where
  sha256 : Option String
deriving DecidableEq

/-- The decoded in-toto Statement.  The source reads
`statement.get("predicateType")` (absent key gives Python `None`, modelled
as `none`) and `statement.get("subject", [])`. -/
structure Statement where
  predicateType : Option String
  subject : List Subject
deriving DecidableEq

/-- One element of an attestation's `signatures` list: `keyid` is read with
`signature.get("keyid")` (optional), `sig` with `signature["sig"]` (a missing
key raises `KeyError`, hence `Option`). -/
structure SigEntry where
  keyid : Option String
  sig : Option String
deriving DecidableEq

/-- A DSSE attestation: `payload` is the base64 text (read with
`attestation["payload"]`), `signatures` is read with
`attestation.get("signatures", [])` so an absent key is the empty list. -/
structure Attestation where
  payload : String
  signatures : List SigEntry
deriving DecidableEq

/-- A transparency-log entry; only `entry["logId"]` is read. -/
structure LogEntry where
  logId : String
deriving DecidableEq

/-- The bundle envelope.  `mediaType` and `version` are read with
`bundle.get(...)` (`none` = absent).  `attestations`/`logEntries` are `none`
when the key is absent or its value is not a list, mirroring the
`isinstance(..., list)` test in `sanity_check_bundle`. -/
structure Bundle where
  mediaType : Option String
  version : Option String
  attestations : Option (List Attestation)
  logEntries : Option (List LogEntry)
deriving DecidableEq

/-- The admission policy: `requiredPredicates` and `allowedSigners` are read
with `policy[...]` and passed to `set(...)`; `logQuorum` is read with
`policy.get("logQuorum", 1)`. -/
structure Policy where
  requiredPredicates : List String
  allowedSigners : List String
  logQuorum : Option Int
deriving DecidableEq

/-- One record of a trust-store role's key list; both fields are read with
`entry.get(...)` / `"publicKey" in entry`, hence optional. -/
structure KeyEntry where
  id : Option String
  publicKey : Option String
deriving DecidableEq

/-- The trust store: `keys` holds the value lists of the role mapping
(`trust_store.get("keys", {}).values()`, role names are never read), `logs`
holds the key set of `trust_store.get("logs", {})`. -/
structure TrustStore where
  keys : List (List KeyEntry)
  logs : List String
deriving DecidableEq

/-- The success evidence (`verify_policy`'s return dict).  `predicates` may
contain `none` when a statement had no `predicateType`. -/
structure Report where
  predicates : List (Option String)
  signers : List String
  logIds : List String
deriving DecidableEq

/-- The structured `details` payloads attached to each `GateError` raise
site in the source. -/
inductive Details where
  | dfield (name : String)
  | dquorum (required : Int) (observed : Nat)
  | dlogId (id : String)
  | dsigners (allowed : List String) (seen : List String)
  | dsubjects (expected : String) (observed : List String)
  | dmissing (preds : List String)
deriving DecidableEq

/-- The `GateError` exception: message, `error_id`, `details`. -/
structure GateError where
  message : String
  error_id : String
  details : Details
deriving DecidableEq

/-- Overall outcome of `verify_policy` as observed by `main`: a returned
report, a raised `GateError` (caught and rendered by `main`), or a raised
exception of any other class, which `main` does not catch (`uncaught`
carries the exception class name). -/
inductive EvalResult where
  | report (r : Report)
  | gateError (e : GateError)
  | uncaught (exc : String)
deriving DecidableEq

/-- The oracle record for the external effects the source relies on:
`base64.b64decode` (raises `binascii.Error` = `none`), `bytes.decode("utf-8")`
(raises `UnicodeDecodeError` = `none`), `json.loads` plus dict projection into
a `Statement` (raises `json.JSONDecodeError` = `none`), and the raw signature
check run through `openssl pkeyutl -verify` (non-zero exit, i.e.
`subprocess.CalledProcessError`, = `false`; arguments are public-key bytes,
message bytes, signature bytes). -/
structure PyEnv where
  b64decode : String → Option (List UInt8)
  utf8decode : List UInt8 → Option String
  jsonLoads : String → Option Statement
  rawVerify : List UInt8 → List UInt8 → List UInt8 → Bool

/-! ## The embedded program -/

/-- `PAYLOAD_TYPE` constant from the source. -/
def PAYLOAD_TYPE : String := "application/vnd.in-toto+json"

/-- The bundle media-type constant checked by `sanity_check_bundle`. -/
def MEDIA_TYPE : String := "application/vnd.verified-container.bundle+json"

/-- The supported bundle version constant checked by `sanity_check_bundle`. -/
def BUNDLE_VERSION : String := "0.1.0"

/-- `dsse_pae(payload_type, payload_b64)`: the DSSE pre-authentication
encoding.  `enc(part) = str(len(part)).encode("ascii") + b" " + part`, and the
result is `b"DSSEv1 " + enc(pt) + b" " + enc(pb)`. -/
def dsse_pae (payload_type payload_b64 : String) : List UInt8 :=
  let enc : List UInt8 → List UInt8 :=
    fun part => utf8Bytes (toString part.length) ++ [32] ++ part
  let pt := utf8Bytes payload_type
  let pb := utf8Bytes payload_b64
  utf8Bytes "DSSEv1 " ++ enc pt ++ [32] ++ enc pb

/-- `verify_signature(pub_key_b64, payload_b64, signature_b64)`: build the
PAE message for the fixed `PAYLOAD_TYPE`, base64-decode key and signature,
and run the external raw verification.  `Except.error` carries the class of
the Python exception the source would raise at that point. -/
def verify_signature (env : PyEnv) (pub_key_b64 payload_b64 signature_b64 : String) :
    Except String Unit :=
  let payload_bytes := dsse_pae PAYLOAD_TYPE payload_b64
  match env.b64decode pub_key_b64 with
  | none => .error "binascii.Error"
  | some pub_der =>
    match env.b64decode signature_b64 with
    | none => .error "binascii.Error"
    | some signature =>
      if env.rawVerify pub_der payload_bytes signature then .ok ()
      else .error "subprocess.CalledProcessError"

/-- `decode_statement(attestation)`: base64-decode the payload, decode the
bytes as UTF-8, parse the text as JSON.  `Except.error` carries the class of
the exception raised at the failing stage. -/
def decode_statement (env : PyEnv) (a : Attestation) : Except String Statement :=
  match env.b64decode a.payload with
  | none => .error "binascii.Error"
  | some bs =>
    match env.utf8decode bs with
    | none => .error "UnicodeDecodeError"
    | some txt =>
      match env.jsonLoads txt with
      | none => .error "json.JSONDecodeError"
      | some st => .ok st

/-- `trust_store_keys(trust_store)`: flatten every role's key list into
`keyid → publicKey` bindings, skipping records whose `id` is falsy (absent or
empty) or which lack a `publicKey`.  Python dict insertion overwrites, so
lookups below take the *last* binding. -/
def trust_store_keys (ts : TrustStore) : List (String × String) :=
  ts.keys.foldl
    (fun acc role_keys =>
      role_keys.foldl
        (fun acc entry =>
          match entry.id, entry.publicKey with
          | some kid, some pk => if kid = "" then acc else acc ++ [(kid, pk)]
          | _, _ => acc)
        acc)
    []

/-- Lookup in a Python-dict-as-binding-list: the last binding wins. -/
def dictLookup (m : List (String × String)) (k : String) : Option String :=
  (m.reverse.find? (fun p => p.1 = k)).map (fun p => p.2)

/-- `sanity_check_bundle(bundle)`: the four structural checks, in source
order, each raising `GateError(..., "ERR_POLICY_DENIED", {"field": ...})`;
`none` means no exception. -/
def sanity_check_bundle (b : Bundle) : Option GateError :=
  if b.mediaType ≠ some MEDIA_TYPE then
    some ⟨"invalid mediaType", "ERR_POLICY_DENIED", .dfield "mediaType"⟩
  else if b.version ≠ some BUNDLE_VERSION then
    some ⟨"unsupported bundle version", "ERR_POLICY_DENIED", .dfield "version"⟩
  else if (b.attestations.getD []).isEmpty then
    some ⟨"attestations required", "ERR_POLICY_DENIED", .dfield "attestations"⟩
  else if (b.logEntries.getD []).isEmpty then
    some ⟨"logEntries required", "ERR_POLICY_DENIED", .dfield "logEntries"⟩
  else none

/-- The `if key_id: seen_signers.add(key_id)` step of the signature loop:
record a keyid only when it is present and non-empty (Python truthiness). -/
def recordSig (seen : List String) (s : SigEntry) : List String :=
  match s.keyid with
  | some k => if k = "" then seen else setAdd seen k
  | none => seen

/-- The guard `key_id in allowed_signers and key_id in keys` of the
signature loop. -/
def isAttempted (allowed : List String) (keys : List (String × String)) (s : SigEntry) : Bool :=
  match s.keyid with
  | some k => decide (k ∈ allowed) && (dictLookup keys k).isSome
  | none => false

/-- Outcome kinds of the signature scan of one attestation: a verified
signature was found (`valid_signature = True`), the loop ran out
(`valid_signature = False`), or a non-`GateError` exception was raised. -/
inductive ScanKind where
  | found
  | notFound
  | raised (exc : String)
deriving DecidableEq

/-- The body `verify_signature(keys[key_id], attestation["payload"],
signature["sig"])` executed once the guard holds: fetch the key, fetch the
`sig` field (`KeyError` if absent), verify. -/
def tryVerify (env : PyEnv) (keys : List (String × String)) (payload : String)
    (s : SigEntry) : ScanKind :=
  match s.keyid with
  | some k =>
    match dictLookup keys k with
    | some pk =>
      match s.sig with
      | some sg =>
        match verify_signature env pk payload sg with
        | .ok _ => .found
        | .error e => .raised e
      | none => .raised "KeyError"
    | none => .notFound
  | none => .notFound

/-- The `for signature in attestation.get("signatures", [])` loop: record
each truthy keyid, and on the first signature passing the allowed/resolvable
guard run the verifier and stop (break on success, propagate on failure).
Returns the outcome together with the updated `seen_signers`. -/
def scan_signatures (env : PyEnv) (allowed : List String) (keys : List (String × String))
    (payload : String) : List SigEntry → List String → ScanKind × List String
  | [], seen => (.notFound, seen)
  | s :: rest, seen =>
    let seen1 := recordSig seen s
    if isAttempted allowed keys s then (tryVerify env keys payload s, seen1)
    else scan_signatures env allowed keys payload rest seen1

/-- Outcome of the `for attestation in ...` loop of `verify_policy`:
normal completion with the three accumulators, the in-loop `GateError`
raise, or a propagating non-`GateError` exception. -/
inductive LoopOut where
  | done (seenP : List (Option String)) (seenS : List String) (missingSubs : List String)
  | denied (e : GateError)
  | raised (exc : String)
deriving DecidableEq

/-- The per-subject digest check of the attestation loop:
`digest = subject.get("digest", {}).get("sha256")`; append `digest` when it
is truthy and `f"sha256:{digest}" != image_digest`. -/
def subject_mismatches (st : Statement) (image_digest : String) : List String :=
  st.subject.filterMap
    (fun subj =>
      match subj.sha256 with
      | some d =>
        if d = "" then none
        else if "sha256:" ++ d = image_digest then none
        else some d
      | none => none)

/-- The attestation loop of `verify_policy`, threading the mutable
`seen_predicates` / `seen_signers` / `missing_subjects` accumulators. -/
def att_loop (env : PyEnv) (allowed : List String) (keys : List (String × String))
    (image_digest : String) :
    List Attestation → List (Option String) → List String → List String → LoopOut
  | [], seenP, seenS, missing => .done seenP seenS missing
  | a :: rest, seenP, seenS, missing =>
    match decode_statement env a with
    | .error exc => .raised exc
    | .ok statement =>
      let seenP1 := setAdd seenP statement.predicateType
      let missing1 := missing ++ subject_mismatches statement image_digest
      match scan_signatures env allowed keys a.payload a.signatures seenS with
      | (.found, seenS1) => att_loop env allowed keys image_digest rest seenP1 seenS1 missing1
      | (.raised exc, _) => .raised exc
      | (.notFound, seenS1) =>
        .denied ⟨"no valid signature for allowed signer", "ERR_POLICY_DENIED",
                 .dsigners (sortStrings allowed) (sortStrings seenS1)⟩

/-- The distinct `logId` values of the bundle's log entries
(`{entry["logId"] for entry in bundle.get("logEntries", [])}`). -/
def distinctLogIds (b : Bundle) : List String :=
  distinctList ((b.logEntries.getD []).map LogEntry.logId)

/-- The tail of `verify_policy` after the attestation loop completes
normally (source lines 162-181): the subject-mismatch check, the
missing-predicate check, and the report construction (whose
`sorted(seen_predicates)` call can itself raise `TypeError`). -/
def finish_policy (policy : Policy) (bundle : Bundle) (image_digest : String)
    (seenP : List (Option String)) (seenS missingSubs : List String) : EvalResult :=
  if missingSubs ≠ [] then
    .gateError ⟨"subject digest mismatch", "ERR_POLICY_DENIED",
                .dsubjects image_digest missingSubs⟩
  else if (distinctList policy.requiredPredicates).filter
      (fun p => decide ((some p) ∉ seenP)) ≠ [] then
    .gateError ⟨"missing required predicates", "ERR_POLICY_DENIED",
                .dmissing (sortStrings ((distinctList policy.requiredPredicates).filter
                  (fun p => decide ((some p) ∉ seenP))))⟩
  else
    match pySortedOptStr seenP with
    | none => .uncaught "TypeError"
    | some preds => .report ⟨preds, sortStrings seenS, sortStrings (distinctLogIds bundle)⟩

/-- `verify_policy(bundle, policy, trust_store, image_digest)`, the Policy
Evaluation Engine.  The pipeline mirrors the source line by line: sanity
checks, log quorum, log-operator recognition, the attestation loop, then
`finish_policy` for the aggregate checks and the report. -/
def verify_policy (env : PyEnv) (bundle : Bundle) (policy : Policy)
    (trust_store : TrustStore) (image_digest : String) : EvalResult :=
  match sanity_check_bundle bundle with
  | some e => .gateError e
  | none =>
    if ((distinctLogIds bundle).length : Int) < policy.logQuorum.getD 1 then
      .gateError ⟨"log quorum not satisfied", "ERR_POLICY_DENIED",
                  .dquorum (policy.logQuorum.getD 1) (distinctLogIds bundle).length⟩
    else
      match (distinctLogIds bundle).find? (fun lid => decide (lid ∉ trust_store.logs)) with
      | some lid =>
        .gateError ⟨"unknown log operator", "ERR_POLICY_DENIED", .dlogId lid⟩
      | none =>
        match att_loop env (distinctList policy.allowedSigners) (trust_store_keys trust_store)
            image_digest (bundle.attestations.getD []) [] [] [] with
        | .raised exc => .uncaught exc
        | .denied e => .gateError e
        | .done seenP seenS missingSubs =>
          finish_policy policy bundle image_digest seenP seenS missingSubs

/-! ## Derived verification-layer notions

These definitions restate observable aspects of the loops above in closed
form (first attempted signature, accumulated observed sets, concatenated
mismatch lists); the lemmas below prove the loops equal to them. -/

/-- `true` iff an `Except` value is `ok` (the Python call returned instead of
raising). -/
def exceptOk {ε α : Type} : Except ε α → Bool
  | .ok _ => true
  | .error _ => false

/-- The decoded statement of an attestation, defaulting to an empty statement
when decoding raises; only used under hypotheses that decoding succeeded. -/
def stmtOf (env : PyEnv) (a : Attestation) : Statement :=
  match decode_statement env a with
  | .ok st => st
  | .error _ => ⟨none, []⟩

/-- The signatures the scan loop actually visits: everything up to and
including the first signature passing the allowed/resolvable guard, or the
whole list when no signature passes it. -/
def scannedSigs (allowed : List String) (keys : List (String × String)) :
    List SigEntry → List SigEntry
  | [] => []
  | s :: rest =>
    if isAttempted allowed keys s then [s] else s :: scannedSigs allowed keys rest

/-- The outcome of the scan loop, independent of the `seen_signers`
accumulator: the verification result of the first attempted signature, or
`notFound` when no signature is attempted. -/
def scanOutcome (env : PyEnv) (allowed : List String) (keys : List (String × String))
    (payload : String) : List SigEntry → ScanKind
  | [] => .notFound
  | s :: rest =>
    if isAttempted allowed keys s then tryVerify env keys payload s
    else scanOutcome env allowed keys payload rest

/-- An attestation that decodes and whose signature scan finds a verified
signature from an allowed, resolvable signer ("signer-validated"). -/
def AttValid (env : PyEnv) (allowed : List String) (keys : List (String × String))
    (a : Attestation) : Prop :=
  exceptOk (decode_statement env a) = true ∧
  scanOutcome env allowed keys a.payload a.signatures = .found

instance (env : PyEnv) (allowed : List String) (keys : List (String × String))
    (a : Attestation) : Decidable (AttValid env allowed keys a) :=
  inferInstanceAs (Decidable (_ ∧ _))

/-- The `seen_signers` contribution of one attestation: the truthy keyids of
the signatures its scan visits, added in order. -/
def attRecords (allowed : List String) (keys : List (String × String))
    (a : Attestation) (seen : List String) : List String :=
  (scannedSigs allowed keys a.signatures).foldl recordSig seen

/-- `seen_signers` after processing a list of attestations. -/
def loopSigners (allowed : List String) (keys : List (String × String))
    (atts : List Attestation) (seen : List String) : List String :=
  atts.foldl (fun acc a => attRecords allowed keys a acc) seen

/-- `seen_predicates` after processing a list of attestations. -/
def loopPreds (env : PyEnv) (atts : List Attestation)
    (seen : List (Option String)) : List (Option String) :=
  atts.foldl (fun acc a => setAdd acc (stmtOf env a).predicateType) seen

/-- `missing_subjects` contributed by a list of attestations, in order. -/
def loopMismatches (env : PyEnv) (image_digest : String)
    (atts : List Attestation) : List String :=
  (atts.map (fun a => subject_mismatches (stmtOf env a) image_digest)).flatten

/-- The observed predicate types of a list of attestations, with
multiplicity and in order (membership is what matters). -/
def observedPreds (env : PyEnv) (atts : List Attestation) : List (Option String) :=
  atts.map (fun a => (stmtOf env a).predicateType)

/-- `required − observed`: the required predicates not observed among the
bundle's attestations, in first-occurrence order. -/
def missingPreds (env : PyEnv) (p : Policy) (b : Bundle) : List String :=
  (distinctList p.requiredPredicates).filter
    (fun q => decide ((some q) ∉ observedPreds env (b.attestations.getD [])))

/-! ## Concrete inputs used by witnesses and counterexamples

The oracle environment `stdEnv` models the external codecs on the small
universe of payload strings the concrete bundles use: base64 decoding fails
exactly on the marker string `"badb64"` (in Python, e.g. the one-character
string `"A"` raises `binascii.Error`), UTF-8 decoding echoes the bytes, and
`json.loads` knows a handful of statements (any other text, e.g. the decoding
of `"p-notjson"`, fails to parse).  `envBadVerify` is the same environment
with an `openssl` that rejects every signature, modelling a payload tampered
after signing. -/

/-- Target digest used by the concrete scenarios. -/
def dg1 : String := "sha256:d1"

/-- Statement with predicate `provenance` and a matching subject digest. -/
def stmtProv : Statement := ⟨some "provenance", [⟨some "d1"⟩]⟩

/-- Statement with predicate `tests` and a matching subject digest. -/
def stmtTests : Statement := ⟨some "tests", [⟨some "d1"⟩]⟩

/-- Statement whose only subject carries the empty-string sha256 digest. -/
def stmtEmptyDigest : Statement := ⟨some "provenance", [⟨some ""⟩]⟩

/-- Statement whose subject digest does not match the target. -/
def stmtMismatch : Statement := ⟨some "provenance", [⟨some "beef"⟩]⟩

/-- Concrete oracle environment for witness runs (see section comment). -/
def stdEnv : PyEnv :=
  { b64decode := fun s => if s = "badb64" then none else some (utf8Bytes s)
  , utf8decode := fun bs => some (bytesToStr bs)
  , jsonLoads := fun s =>
      if s = "p-prov" then some stmtProv
      else if s = "p-tests" then some stmtTests
      else if s = "p-empty-digest" then some stmtEmptyDigest
      else if s = "p-mismatch" then some stmtMismatch
      else none
  , rawVerify := fun _ _ _ => true }

/-- Same environment but every raw signature check fails (tampered payload). -/
def envBadVerify : PyEnv := { stdEnv with rawVerify := fun _ _ _ => false }

/-- Trust store resolving `k1` and recognizing logs `log-a`, `log-b`. -/
def ts1 : TrustStore := ⟨[[⟨some "k1", some "PK"⟩]], ["log-a", "log-b"]⟩

/-- Trust store whose `k1` public key is not valid base64. -/
def tsBadKey : TrustStore := ⟨[[⟨some "k1", some "badb64"⟩]], ["log-a", "log-b"]⟩

/-- Policy requiring `provenance`, allowing signer `k1`, default quorum. -/
def pol1 : Policy := ⟨["provenance"], ["k1"], none⟩

/-- Attestation correctly signed by `k1` over the `provenance` statement. -/
def attProv : Attestation := ⟨"p-prov", [⟨some "k1", some "sigA"⟩]⟩

/-- A sanity-passing bundle holding the given attestations and one `log-a` entry. -/
def mkBundle (atts : List Attestation) : Bundle :=
  ⟨some MEDIA_TYPE, some BUNDLE_VERSION, some atts, some [⟨"log-a"⟩]⟩

/-- The admissible concrete bundle of the spec's first scenario. -/
def bundleProv : Bundle := mkBundle [attProv]

/-- Policy additionally requiring the unobserved predicate `tests`. -/
def polPT : Policy := ⟨["provenance", "tests"], ["k1"], none⟩

/-- Policy with an explicit log quorum of 2. -/
def polQ2 : Policy := ⟨["provenance"], ["k1"], some 2⟩

/-- Bundle whose only log entry names an operator the trust store does not
recognize. -/
def bundleBadLog : Bundle :=
  ⟨some MEDIA_TYPE, some BUNDLE_VERSION, some [attProv], some [⟨"log-zz"⟩]⟩

/-- Attestation signed by `k1` whose subject digest mismatches the target. -/
def attMismatch : Attestation := ⟨"p-mismatch", [⟨some "k1", some "sigA"⟩]⟩

/-- Attestation whose signature list holds a disallowed keyid, then the
valid `k1` signature, then a further keyid after the valid one. -/
def attExtraSigs : Attestation :=
  ⟨"p-prov", [⟨some "other", some "s1"⟩, ⟨some "k1", some "s2"⟩, ⟨some "after", some "s3"⟩]⟩

/-- Attestation with the `tests` statement signed by a keyid outside the
allowed set. -/
def attWrongSigner : Attestation := ⟨"p-tests", [⟨some "kX", some "s"⟩]⟩

/-! ## Helper lemmas -/

theorem mem_setAdd {α : Type} [DecidableEq α] (s : List α) (x a : α) :
    a ∈ setAdd s x ↔ a ∈ s ∨ a = x := by
  unfold setAdd
  by_cases h : x ∈ s
  · rw [if_pos h]
    constructor
    · exact fun ha => Or.inl ha
    · rintro (ha | rfl)
      · exact ha
      · exact h
  · rw [if_neg h]
    simp

theorem mem_foldl_setAdd {α β : Type} [DecidableEq β] (f : α → β) (l : List α)
    (s : List β) (x : β) :
    x ∈ l.foldl (fun acc a => setAdd acc (f a)) s ↔ x ∈ s ∨ x ∈ l.map f := by
  induction l generalizing s with
  | nil => simp
  | cons a rest ih => simp [ih, mem_setAdd, or_assoc]

theorem mem_distinctList {α : Type} [DecidableEq α] (xs : List α) (a : α) :
    a ∈ distinctList xs ↔ a ∈ xs := by
  have h := mem_foldl_setAdd (fun y : α => y) xs [] a
  simpa [distinctList] using h

/-- The signature loop equals its closed form: the outcome of the first
attempted signature, next to `seen_signers` folded over exactly the
signatures up to and including that one. -/
theorem scan_signatures_spec (env : PyEnv) (allowed : List String)
    (keys : List (String × String)) (payload : String) (sigs : List SigEntry)
    (seen : List String) :
    scan_signatures env allowed keys payload sigs seen =
      (scanOutcome env allowed keys payload sigs,
       (scannedSigs allowed keys sigs).foldl recordSig seen) := by
  induction sigs generalizing seen with
  | nil => rfl
  | cons s rest ih =>
    by_cases h : isAttempted allowed keys s
    · simp [scan_signatures, scanOutcome, scannedSigs, h]
    · simp [scan_signatures, scanOutcome, scannedSigs, h, ih]

/-- A scan over signatures none of which passes the guard visits all of them
and finds nothing. -/
theorem scanOutcome_of_none_attempted (env : PyEnv) (allowed : List String)
    (keys : List (String × String)) (payload : String) (sigs : List SigEntry)
    (h : ∀ s ∈ sigs, isAttempted allowed keys s = false) :
    scanOutcome env allowed keys payload sigs = .notFound ∧
    scannedSigs allowed keys sigs = sigs := by
  induction sigs with
  | nil => exact ⟨rfl, rfl⟩
  | cons s rest ih =>
    have hs : isAttempted allowed keys s = false := h s (by simp)
    have hrest := ih (fun x hx => h x (by simp [hx]))
    simp [scanOutcome, scannedSigs, hs, hrest.1, hrest.2]

/-- One loop step on an attestation that fails to decode: the exception
propagates. -/
theorem att_loop_cons_decode_error (env : PyEnv) (allowed : List String)
    (keys : List (String × String)) (d : String) (a : Attestation)
    (rest : List Attestation) (seenP : List (Option String))
    (seenS missing : List String) (e : String)
    (hda : decode_statement env a = .error e) :
    att_loop env allowed keys d (a :: rest) seenP seenS missing = .raised e := by
  simp [att_loop, hda]

/-- One loop step on an attestation whose scan finds a verified signature. -/
theorem att_loop_cons_found (env : PyEnv) (allowed : List String)
    (keys : List (String × String)) (d : String) (a : Attestation)
    (rest : List Attestation) (seenP : List (Option String))
    (seenS missing : List String) (st : Statement)
    (hda : decode_statement env a = .ok st)
    (hscan : scanOutcome env allowed keys a.payload a.signatures = .found) :
    att_loop env allowed keys d (a :: rest) seenP seenS missing =
      att_loop env allowed keys d rest (setAdd seenP st.predicateType)
        (attRecords allowed keys a seenS) (missing ++ subject_mismatches st d) := by
  simp only [att_loop, hda]
  rw [scan_signatures_spec, hscan]
  rfl

/-- One loop step on an attestation whose scan exhausts the signature list:
the short-circuiting denial, whose `seen` detail is the accumulator after
scanning this attestation. -/
theorem att_loop_cons_notFound (env : PyEnv) (allowed : List String)
    (keys : List (String × String)) (d : String) (a : Attestation)
    (rest : List Attestation) (seenP : List (Option String))
    (seenS missing : List String) (st : Statement)
    (hda : decode_statement env a = .ok st)
    (hscan : scanOutcome env allowed keys a.payload a.signatures = .notFound) :
    att_loop env allowed keys d (a :: rest) seenP seenS missing =
      .denied ⟨"no valid signature for allowed signer", "ERR_POLICY_DENIED",
               .dsigners (sortStrings allowed)
                 (sortStrings (attRecords allowed keys a seenS))⟩ := by
  simp only [att_loop, hda]
  rw [scan_signatures_spec, hscan]
  rfl

/-- One loop step on an attestation whose scan raises: the exception
propagates out of the loop. -/
theorem att_loop_cons_raised (env : PyEnv) (allowed : List String)
    (keys : List (String × String)) (d : String) (a : Attestation)
    (rest : List Attestation) (seenP : List (Option String))
    (seenS missing : List String) (st : Statement) (e : String)
    (hda : decode_statement env a = .ok st)
    (hscan : scanOutcome env allowed keys a.payload a.signatures = .raised e) :
    att_loop env allowed keys d (a :: rest) seenP seenS missing = .raised e := by
  simp only [att_loop, hda]
  rw [scan_signatures_spec, hscan]

/-- Stepping the attestation loop over a signer-validated, decodable run:
the loop threads exactly the closed-form accumulators. -/
theorem att_loop_append (env : PyEnv) (allowed : List String)
    (keys : List (String × String)) (d : String) (l1 l2 : List Attestation)
    (seenP : List (Option String)) (seenS missing : List String)
    (h : ∀ a ∈ l1, AttValid env allowed keys a) :
    att_loop env allowed keys d (l1 ++ l2) seenP seenS missing =
      att_loop env allowed keys d l2 (loopPreds env l1 seenP)
        (loopSigners allowed keys l1 seenS) (missing ++ loopMismatches env d l1) := by
  induction l1 generalizing seenP seenS missing with
  | nil => simp [loopPreds, loopSigners, loopMismatches]
  | cons a rest ih =>
    obtain ⟨hdec, hscan⟩ := h a (by simp)
    cases hda : decode_statement env a with
    | error e => rw [hda] at hdec; simp [exceptOk] at hdec
    | ok st =>
      have hst : stmtOf env a = st := by simp [stmtOf, hda]
      rw [List.cons_append, att_loop_cons_found env allowed keys d a _ _ _ _ st hda hscan]
      rw [ih _ _ _ (fun x hx => h x (by simp [hx]))]
      simp [loopPreds, loopSigners, loopMismatches, attRecords, hst, List.append_assoc]

/-- Inversion of a normally-completed attestation loop: every attestation was
decodable and signer-validated, and the final accumulators are the closed
forms. -/
theorem att_loop_done_inv (env : PyEnv) (allowed : List String)
    (keys : List (String × String)) (d : String) (atts : List Attestation)
    (seenP : List (Option String)) (seenS missing : List String)
    (sp : List (Option String)) (ss ms : List String)
    (h : att_loop env allowed keys d atts seenP seenS missing = .done sp ss ms) :
    (∀ a ∈ atts, AttValid env allowed keys a) ∧
    sp = loopPreds env atts seenP ∧
    ss = loopSigners allowed keys atts seenS ∧
    ms = missing ++ loopMismatches env d atts := by
  induction atts generalizing seenP seenS missing with
  | nil =>
    simp only [att_loop, LoopOut.done.injEq] at h
    obtain ⟨h1, h2, h3⟩ := h
    exact ⟨by simp, by simp [loopPreds, h1.symm], by simp [loopSigners, h2.symm],
           by simp [loopMismatches, h3.symm]⟩
  | cons a rest ih =>
    cases hda : decode_statement env a with
    | error e =>
      rw [att_loop_cons_decode_error env allowed keys d a rest seenP seenS missing e hda] at h
      exact absurd h (by simp)
    | ok st =>
      have hst : stmtOf env a = st := by simp [stmtOf, hda]
      cases hsc : scanOutcome env allowed keys a.payload a.signatures with
      | found =>
        rw [att_loop_cons_found env allowed keys d a rest seenP seenS missing st hda hsc] at h
        obtain ⟨hv, h1, h2, h3⟩ := ih _ _ _ h
        refine ⟨?_, ?_, ?_, ?_⟩
        · intro x hx
          rcases List.mem_cons.mp hx with rfl | hx
          · exact ⟨by simp [exceptOk, hda], hsc⟩
          · exact hv x hx
        · simpa [loopPreds, hst] using h1
        · simpa [loopSigners, attRecords] using h2
        · rw [h3]
          simp [loopMismatches, hst, List.append_assoc]
      | notFound =>
        rw [att_loop_cons_notFound env allowed keys d a rest seenP seenS missing st hda hsc] at h
        exact absurd h (by simp)
      | raised e =>
        rw [att_loop_cons_raised env allowed keys d a rest seenP seenS missing st e hda hsc] at h
        exact absurd h (by simp)

/-- The attestation loop over an all-valid run completes normally with the
closed-form accumulators. -/
theorem att_loop_all_valid (env : PyEnv) (allowed : List String)
    (keys : List (String × String)) (d : String) (atts : List Attestation)
    (h : ∀ a ∈ atts, AttValid env allowed keys a) :
    att_loop env allowed keys d atts [] [] [] =
      .done (loopPreds env atts []) (loopSigners allowed keys atts [])
        (loopMismatches env d atts) := by
  have happ := att_loop_append env allowed keys d atts [] [] [] [] h
  simpa [att_loop] using happ

/-- Any denial raised inside the attestation loop is the
no-valid-signature denial, with `dsigners` details. -/
theorem att_loop_denied_shape (env : PyEnv) (allowed : List String)
    (keys : List (String × String)) (d : String) (atts : List Attestation)
    (seenP : List (Option String)) (seenS missing : List String) (e : GateError)
    (h : att_loop env allowed keys d atts seenP seenS missing = .denied e) :
    ∃ al sn, e = ⟨"no valid signature for allowed signer", "ERR_POLICY_DENIED",
                  .dsigners al sn⟩ := by
  induction atts generalizing seenP seenS missing with
  | nil => simp [att_loop] at h
  | cons a rest ih =>
    cases hda : decode_statement env a with
    | error ex =>
      rw [att_loop_cons_decode_error env allowed keys d a rest seenP seenS missing ex hda] at h
      exact absurd h (by simp)
    | ok st =>
      cases hsc : scanOutcome env allowed keys a.payload a.signatures with
      | found =>
        rw [att_loop_cons_found env allowed keys d a rest seenP seenS missing st hda hsc] at h
        exact ih _ _ _ h
      | notFound =>
        rw [att_loop_cons_notFound env allowed keys d a rest seenP seenS missing st hda hsc] at h
        injection h with h
        exact ⟨_, _, h.symm⟩
      | raised ex =>
        rw [att_loop_cons_raised env allowed keys d a rest seenP seenS missing st ex hda hsc] at h
        exact absurd h (by simp)

/-- Every `GateError` raised by `sanity_check_bundle` carries `dfield`
details. -/
theorem sanity_some_shape (b : Bundle) (e : GateError)
    (h : sanity_check_bundle b = some e) :
    e.error_id = "ERR_POLICY_DENIED" ∧ ∃ f, e.details = .dfield f := by
  unfold sanity_check_bundle at h
  split at h
  · injection h with h; exact ⟨by rw [← h], ⟨"mediaType", by rw [← h]⟩⟩
  · split at h
    · injection h with h; exact ⟨by rw [← h], ⟨"version", by rw [← h]⟩⟩
    · split at h
      · injection h with h; exact ⟨by rw [← h], ⟨"attestations", by rw [← h]⟩⟩
      · split at h
        · injection h with h; exact ⟨by rw [← h], ⟨"logEntries", by rw [← h]⟩⟩
        · exact absurd h (by simp)

/-- Once the sanity, quorum and log-recognition stages pass, `verify_policy`
is the attestation loop followed by the aggregate checks. -/
theorem verify_policy_after_logs (env : PyEnv) (b : Bundle) (p : Policy)
    (ts : TrustStore) (d : String)
    (hs : sanity_check_bundle b = none)
    (hq : ¬ ((distinctLogIds b).length : Int) < p.logQuorum.getD 1)
    (hl : ∀ lid ∈ distinctLogIds b, lid ∈ ts.logs) :
    verify_policy env b p ts d =
      match att_loop env (distinctList p.allowedSigners) (trust_store_keys ts) d
          (b.attestations.getD []) [] [] [] with
      | .raised exc => .uncaught exc
      | .denied e => .gateError e
      | .done seenP seenS missingSubs => finish_policy p b d seenP seenS missingSubs := by
  unfold verify_policy
  rw [hs, if_neg hq]
  have hfind : (distinctLogIds b).find? (fun lid => decide (lid ∉ ts.logs)) = none := by
    rw [List.find?_eq_none]
    intro x hx
    simpa using hl x hx
  rw [hfind]

/-- Under passing earlier stages and an all-valid attestation run, the
outcome is `finish_policy` on the closed-form accumulators. -/
theorem verify_policy_all_valid (env : PyEnv) (b : Bundle) (p : Policy)
    (ts : TrustStore) (d : String)
    (hs : sanity_check_bundle b = none)
    (hq : ¬ ((distinctLogIds b).length : Int) < p.logQuorum.getD 1)
    (hl : ∀ lid ∈ distinctLogIds b, lid ∈ ts.logs)
    (hv : ∀ a ∈ b.attestations.getD [],
        AttValid env (distinctList p.allowedSigners) (trust_store_keys ts) a) :
    verify_policy env b p ts d =
      finish_policy p b d (loopPreds env (b.attestations.getD []) [])
        (loopSigners (distinctList p.allowedSigners) (trust_store_keys ts)
          (b.attestations.getD []) [])
        (loopMismatches env d (b.attestations.getD [])) := by
  rw [verify_policy_after_logs env b p ts d hs hq hl,
      att_loop_all_valid env _ _ d _ hv]

/-- Under passing earlier stages and an all-valid attestation run, a
non-empty mismatch list produces the subject-binding denial. -/
theorem verify_policy_subjects_deny (env : PyEnv) (b : Bundle) (p : Policy)
    (ts : TrustStore) (d : String)
    (hs : sanity_check_bundle b = none)
    (hq : ¬ ((distinctLogIds b).length : Int) < p.logQuorum.getD 1)
    (hl : ∀ lid ∈ distinctLogIds b, lid ∈ ts.logs)
    (hv : ∀ a ∈ b.attestations.getD [],
        AttValid env (distinctList p.allowedSigners) (trust_store_keys ts) a)
    (hm : loopMismatches env d (b.attestations.getD []) ≠ []) :
    verify_policy env b p ts d =
      .gateError ⟨"subject digest mismatch", "ERR_POLICY_DENIED",
                  .dsubjects d (loopMismatches env d (b.attestations.getD []))⟩ := by
  rw [verify_policy_all_valid env b p ts d hs hq hl hv]
  unfold finish_policy
  rw [if_pos hm]

/-- Under passing earlier stages, an all-valid run and no subject
mismatches, unmet required predicates produce the coverage denial. -/
theorem verify_policy_missing_deny (env : PyEnv) (b : Bundle) (p : Policy)
    (ts : TrustStore) (d : String)
    (hs : sanity_check_bundle b = none)
    (hq : ¬ ((distinctLogIds b).length : Int) < p.logQuorum.getD 1)
    (hl : ∀ lid ∈ distinctLogIds b, lid ∈ ts.logs)
    (hv : ∀ a ∈ b.attestations.getD [],
        AttValid env (distinctList p.allowedSigners) (trust_store_keys ts) a)
    (hm : loopMismatches env d (b.attestations.getD []) = [])
    (hp : (distinctList p.requiredPredicates).filter
        (fun q => decide ((some q) ∉ loopPreds env (b.attestations.getD []) [])) ≠ []) :
    verify_policy env b p ts d =
      .gateError ⟨"missing required predicates", "ERR_POLICY_DENIED",
                  .dmissing (sortStrings ((distinctList p.requiredPredicates).filter
                    (fun q => decide ((some q) ∉ loopPreds env (b.attestations.getD []) []))))⟩ := by
  rw [verify_policy_all_valid env b p ts d hs hq hl hv]
  unfold finish_policy
  rw [if_neg (fun hc => hc hm), if_pos hp]

/-- Inversion of a successful evaluation: every pipeline stage passed and
the report fields are the closed forms. -/
theorem verify_policy_report_inv (env : PyEnv) (b : Bundle) (p : Policy)
    (ts : TrustStore) (d : String) (r : Report)
    (h : verify_policy env b p ts d = .report r) :
    sanity_check_bundle b = none ∧
    ¬ ((distinctLogIds b).length : Int) < p.logQuorum.getD 1 ∧
    (∀ lid ∈ distinctLogIds b, lid ∈ ts.logs) ∧
    (∀ a ∈ b.attestations.getD [],
        AttValid env (distinctList p.allowedSigners) (trust_store_keys ts) a) ∧
    loopMismatches env d (b.attestations.getD []) = [] ∧
    (distinctList p.requiredPredicates).filter
      (fun q => decide ((some q) ∉ loopPreds env (b.attestations.getD []) [])) = [] ∧
    pySortedOptStr (loopPreds env (b.attestations.getD []) []) = some r.predicates ∧
    r.signers = sortStrings (loopSigners (distinctList p.allowedSigners)
      (trust_store_keys ts) (b.attestations.getD []) []) ∧
    r.logIds = sortStrings (distinctLogIds b) := by
  unfold verify_policy at h
  split at h
  next e heq => exact absurd h (by simp)
  next hs =>
  split at h
  next hq => exact absurd h (by simp)
  next hq =>
  split at h
  next lid heq => exact absurd h (by simp)
  next hfind =>
  split at h
  next exc heq => exact absurd h (by simp)
  next e heq => exact absurd h (by simp)
  next sp ss ms hal =>
  obtain ⟨hv, hsp, hss, hms⟩ := att_loop_done_inv _ _ _ _ _ _ _ _ _ _ _ hal
  unfold finish_policy at h
  split at h
  next hm => exact absurd h (by simp)
  next hm =>
  split at h
  next hp => exact absurd h (by simp)
  next hp =>
  split at h
  next heq => exact absurd h (by simp)
  next preds hsort =>
  rw [not_not] at hm
  injection h with h
  have hl : ∀ lid ∈ distinctLogIds b, lid ∈ ts.logs := by
    intro x hx
    have hx2 := List.find?_eq_none.mp hfind x hx
    simpa using hx2
  refine ⟨hs, hq, hl, hv, ?_, ?_, ?_, ?_, ?_⟩
  · rw [hms] at hm
    simpa using hm
  · rw [not_not] at hp
    rw [hsp] at hp
    exact hp
  · rw [hsp] at hsort
    rw [← h]
    simpa using hsort
  · rw [← h]
    simp [hss]
  · rw [← h]

/-- Inversion of a subject-binding denial: it implies every attestation was
signer-validated, and identifies the details. -/
theorem verify_policy_subjects_inv (env : PyEnv) (b : Bundle) (p : Policy)
    (ts : TrustStore) (d : String) (msg eid ex : String) (obs : List String)
    (h : verify_policy env b p ts d = .gateError ⟨msg, eid, .dsubjects ex obs⟩) :
    (∀ a ∈ b.attestations.getD [],
        AttValid env (distinctList p.allowedSigners) (trust_store_keys ts) a) ∧
    ex = d ∧ obs = loopMismatches env d (b.attestations.getD []) := by
  unfold verify_policy at h
  split at h
  next e heq =>
    obtain ⟨-, f, hf⟩ := sanity_some_shape b e heq
    injection h with h
    rw [h] at hf
    exact absurd hf (by simp)
  next hs =>
  split at h
  next hq => exact absurd h (by simp)
  next hq =>
  split at h
  next lid heq => exact absurd h (by simp)
  next hfind =>
  split at h
  next exc heq => exact absurd h (by simp)
  next e heq =>
    obtain ⟨al, sn, hshape⟩ := att_loop_denied_shape _ _ _ _ _ _ _ _ _ heq
    injection h with h
    rw [hshape] at h
    exact absurd h (by simp)
  next sp ss ms hal =>
  obtain ⟨hv, hsp, hss, hms⟩ := att_loop_done_inv _ _ _ _ _ _ _ _ _ _ _ hal
  unfold finish_policy at h
  split at h
  next hm =>
    injection h with h
    injection h with h1 h2 h3
    injection h3 with h4 h5
    refine ⟨hv, h4.symm, ?_⟩
    rw [← h5, hms]
    simp
  next hm =>
  split at h
  next hp => exact absurd h (by simp)
  next hp =>
  split at h
  next heq => exact absurd h (by simp)
  next preds hsort => exact absurd h (by simp)

/-- Membership in the accumulated `seen_predicates` set is membership in the
observed predicate list. -/
theorem mem_loopPreds (env : PyEnv) (atts : List Attestation) (x : Option String) :
    x ∈ loopPreds env atts [] ↔ x ∈ observedPreds env atts := by
  have h := mem_foldl_setAdd (fun a => (stmtOf env a).predicateType) atts [] x
  simpa [loopPreds, observedPreds] using h

/-- The filter computed by the missing-predicate check equals
`missingPreds`. -/
theorem missingPreds_eq_filter (env : PyEnv) (p : Policy) (b : Bundle) :
    (distinctList p.requiredPredicates).filter
      (fun q => decide ((some q) ∉ loopPreds env (b.attestations.getD []) [])) =
      missingPreds env p b := by
  unfold missingPreds
  apply List.filter_congr
  intro q hq
  simp [mem_loopPreds]

/-- `seen_signers` over a run extended by one attestation. -/
theorem loopSigners_append_one (allowed : List String) (keys : List (String × String))
    (l1 : List Attestation) (a : Attestation) (s : List String) :
    loopSigners allowed keys (l1 ++ [a]) s =
      attRecords allowed keys a (loopSigners allowed keys l1 s) := by
  simp [loopSigners, List.foldl_append]

/-! ## Claim theorems -/

/-- Claim C1 is contradicted by the code (code bug): when the Signature
Verifier fails — here a cryptographic rejection of a tampered payload
(`openssl` exits non-zero), a public key in the trust store that is not
valid base64, and a signature field that is not valid base64 — the exception
propagates out of `verify_policy` uncaught (`main` catches only
`GateError`), instead of surfacing as the `ERR_POLICY_DENIED` denial that a
wrong signature is claimed to produce. -/
theorem c1_verifier_failure_uncategorized :
    verify_policy envBadVerify bundleProv pol1 ts1 dg1 =
      .uncaught "subprocess.CalledProcessError" ∧
    verify_policy stdEnv bundleProv pol1 tsBadKey dg1 = .uncaught "binascii.Error" ∧
    verify_policy stdEnv (mkBundle [⟨"p-prov", [⟨some "k1", some "badb64"⟩]⟩]) pol1 ts1 dg1 =
      .uncaught "binascii.Error" :=
  ⟨by decide, by decide, by decide⟩

/-- Claim C2 is contradicted by the code (code bug): an attestation payload
that fails base64 decoding, or whose decoded bytes are not valid JSON, makes
`decode_statement` raise an exception that is not a `GateError`, so
evaluation ends in an uncategorized crash rather than the claimed
`ERR_POLICY_DENIED` denial. -/
theorem c2_decode_failure_uncategorized :
    verify_policy stdEnv (mkBundle [⟨"badb64", [⟨some "k1", some "sigA"⟩]⟩]) pol1 ts1 dg1 =
      .uncaught "binascii.Error" ∧
    verify_policy stdEnv (mkBundle [⟨"p-notjson", [⟨some "k1", some "sigA"⟩]⟩]) pol1 ts1 dg1 =
      .uncaught "json.JSONDecodeError" :=
  ⟨by decide, by decide⟩

/-- Counterexample to claim C3 as stated: a signature with the empty-string
keyid is not recorded into the observed-signers set (Python truthiness), so
the denial's `seen` detail is `[]`, not `[""]`; and when an attestation's
only signature has an allowed, resolvable keyid whose verification fails, no
signature validates yet evaluation does not deny with `{allowed, seen}` —
it crashes uncategorized. -/
theorem c3_counterexample :
    (verify_policy stdEnv (mkBundle [⟨"p-prov", [⟨some "", some "sigA"⟩]⟩]) pol1 ts1 dg1 =
      .gateError ⟨"no valid signature for allowed signer", "ERR_POLICY_DENIED",
                  .dsigners ["k1"] []⟩) ∧
    (verify_policy stdEnv (mkBundle [⟨"p-prov", [⟨some "", some "sigA"⟩]⟩]) pol1 ts1 dg1 ≠
      .gateError ⟨"no valid signature for allowed signer", "ERR_POLICY_DENIED",
                  .dsigners ["k1"] [""]⟩) ∧
    (verify_policy envBadVerify (mkBundle [attProv]) pol1 ts1 dg1 =
      .uncaught "subprocess.CalledProcessError") :=
  ⟨by decide, by decide, by decide⟩

/-- Claim C3 (amended): the engine scans each attestation's signatures in
order, recording each non-empty keyid into the observed-signers set, visiting
exactly the signatures up to and including the first one whose keyid is both
allowed and resolvable, on which alone the Signature Verifier runs
(first-match wins); and when — with the earlier pipeline stages passing and
all preceding attestations signer-validated — an attestation carries no
signature with an allowed, resolvable keyid, evaluation denies immediately
with `ERR_POLICY_DENIED` and details `{allowed: sorted allowed signers,
seen: sorted observed keyids}`, regardless of the remaining attestations and
before the subject-digest and required-predicate checks run. -/
theorem c3_signature_scan_and_denial :
    (∀ (env : PyEnv) (allowed : List String) (keys : List (String × String))
        (payload : String) (sigs : List SigEntry) (seen : List String),
      scan_signatures env allowed keys payload sigs seen =
        (scanOutcome env allowed keys payload sigs,
         (scannedSigs allowed keys sigs).foldl recordSig seen)) ∧
    (∀ (env : PyEnv) (b : Bundle) (p : Policy) (ts : TrustStore) (d : String)
        (l1 : List Attestation) (a : Attestation) (l2 : List Attestation),
      sanity_check_bundle b = none →
      ¬ ((distinctLogIds b).length : Int) < p.logQuorum.getD 1 →
      (∀ lid ∈ distinctLogIds b, lid ∈ ts.logs) →
      b.attestations = some (l1 ++ a :: l2) →
      (∀ x ∈ l1, AttValid env (distinctList p.allowedSigners) (trust_store_keys ts) x) →
      exceptOk (decode_statement env a) = true →
      (∀ s ∈ a.signatures,
        isAttempted (distinctList p.allowedSigners) (trust_store_keys ts) s = false) →
      verify_policy env b p ts d =
        .gateError ⟨"no valid signature for allowed signer", "ERR_POLICY_DENIED",
                    .dsigners (sortStrings (distinctList p.allowedSigners))
                      (sortStrings (loopSigners (distinctList p.allowedSigners)
                        (trust_store_keys ts) (l1 ++ [a]) []))⟩) := by
  constructor
  · exact fun env allowed keys payload sigs seen =>
      scan_signatures_spec env allowed keys payload sigs seen
  · intro env b p ts d l1 a l2 hs hq hl hatts h1 hdec hns
    have hgd : b.attestations.getD [] = l1 ++ a :: l2 := by rw [hatts]; rfl
    obtain ⟨st, hst⟩ : ∃ st, decode_statement env a = .ok st := by
      cases hda : decode_statement env a with
      | error e => rw [hda] at hdec; simp [exceptOk] at hdec
      | ok st => exact ⟨st, rfl⟩
    have hout := scanOutcome_of_none_attempted env (distinctList p.allowedSigners)
      (trust_store_keys ts) a.payload a.signatures hns
    rw [verify_policy_after_logs env b p ts d hs hq hl, hgd,
        att_loop_append env _ _ d l1 (a :: l2) [] [] [] h1,
        att_loop_cons_notFound env _ _ d a l2 _ _ _ st hst hout.1,
        loopSigners_append_one]

/-- Witness for claim C3: concrete denial through the amended theorem — the
first attestation is validated by `k1`, the second carries only the
disallowed keyid `kX`, so evaluation denies with `allowed = ["k1"]` and
`seen` the sorted observed keyids `["k1", "kX"]`. -/
theorem c3_signature_scan_and_denial_witness :
    verify_policy stdEnv (mkBundle [attProv, attWrongSigner]) pol1 ts1 dg1 =
      .gateError ⟨"no valid signature for allowed signer", "ERR_POLICY_DENIED",
                  .dsigners (sortStrings (distinctList pol1.allowedSigners))
                    (sortStrings (loopSigners (distinctList pol1.allowedSigners)
                      (trust_store_keys ts1) ([attProv] ++ [attWrongSigner]) []))⟩ :=
  c3_signature_scan_and_denial.2 stdEnv (mkBundle [attProv, attWrongSigner]) pol1 ts1 dg1
    [attProv] attWrongSigner []
    (by decide) (by decide) (by decide) (by decide) (by decide) (by decide) (by decide)

/-- Claim C4: a successful evaluation observes every required predicate
among the (all signature-valid) attestations, and when every earlier stage
passes, an unmet required-predicate set denies with `missing` equal to
exactly the sorted difference `required − observed`. -/
theorem c4_required_predicate_coverage (env : PyEnv) (b : Bundle) (p : Policy)
    (ts : TrustStore) (d : String) :
    (∀ r : Report, verify_policy env b p ts d = .report r →
      (∀ a ∈ b.attestations.getD [],
        AttValid env (distinctList p.allowedSigners) (trust_store_keys ts) a) ∧
      ∀ q ∈ p.requiredPredicates, some q ∈ observedPreds env (b.attestations.getD [])) ∧
    (sanity_check_bundle b = none →
      ¬ ((distinctLogIds b).length : Int) < p.logQuorum.getD 1 →
      (∀ lid ∈ distinctLogIds b, lid ∈ ts.logs) →
      (∀ a ∈ b.attestations.getD [],
        AttValid env (distinctList p.allowedSigners) (trust_store_keys ts) a) →
      loopMismatches env d (b.attestations.getD []) = [] →
      missingPreds env p b ≠ [] →
      verify_policy env b p ts d =
        .gateError ⟨"missing required predicates", "ERR_POLICY_DENIED",
                    .dmissing (sortStrings (missingPreds env p b))⟩) := by
  constructor
  · intro r h
    refine ⟨(verify_policy_report_inv env b p ts d r h).2.2.2.1, ?_⟩
    intro q hq
    have hfil := (verify_policy_report_inv env b p ts d r h).2.2.2.2.2.1
    have hq2 : q ∈ distinctList p.requiredPredicates := (mem_distinctList _ q).mpr hq
    have := List.filter_eq_nil_iff.mp hfil q hq2
    rw [← mem_loopPreds]
    simpa using this
  · intro hs hq hl hv hm hmp
    have hfe := missingPreds_eq_filter env p b
    have hne : (distinctList p.requiredPredicates).filter
        (fun q => decide ((some q) ∉ loopPreds env (b.attestations.getD []) [])) ≠ [] := by
      rw [hfe]; exact hmp
    rw [verify_policy_missing_deny env b p ts d hs hq hl hv hm hne, hfe]

/-- Witness for claim C4: the concrete bundle observes only `provenance`
while the policy also requires `tests`, so evaluation denies with
`missing = ["tests"]`. -/
theorem c4_required_predicate_coverage_witness :
    verify_policy stdEnv bundleProv polPT ts1 dg1 =
      .gateError ⟨"missing required predicates", "ERR_POLICY_DENIED",
                  .dmissing (sortStrings (missingPreds stdEnv polPT bundleProv))⟩ ∧
    sortStrings (missingPreds stdEnv polPT bundleProv) = ["tests"] :=
  ⟨(c4_required_predicate_coverage stdEnv bundleProv polPT ts1 dg1).2
     (by decide) (by decide) (by decide) (by decide) (by decide) (by decide),
   by decide⟩

/-- Counterexample to claim C5 as stated: the only attestation's subject
carries the sha256 digest `""`, whose `"sha256:" ++ ""` form differs from
the target digest, yet evaluation admits the bundle with a success report
(the code's truthiness test skips empty digests) instead of denying with
`observed = [""]`. -/
theorem c5_counterexample :
    verify_policy stdEnv (mkBundle [⟨"p-empty-digest", [⟨some "k1", some "sigA"⟩]⟩])
        pol1 ts1 dg1 =
      .report ⟨[some "provenance"], ["k1"], ["log-a"]⟩ := by decide

/-- Claim C5 (amended): when every pipeline stage up to signer validation
passes and all attestations are signer-valid, a non-empty list of non-empty
subject sha256 digests whose `sha256:<digest>` form differs from the target
denies with `ERR_POLICY_DENIED` and details `{expected: imageDigest,
observed: exactly those digests in order}`; conversely, a subject-binding
denial only occurs once every attestation has been established
signer-valid. -/
theorem c5_subject_binding (env : PyEnv) (b : Bundle) (p : Policy)
    (ts : TrustStore) (d : String) :
    (sanity_check_bundle b = none →
      ¬ ((distinctLogIds b).length : Int) < p.logQuorum.getD 1 →
      (∀ lid ∈ distinctLogIds b, lid ∈ ts.logs) →
      (∀ a ∈ b.attestations.getD [],
        AttValid env (distinctList p.allowedSigners) (trust_store_keys ts) a) →
      loopMismatches env d (b.attestations.getD []) ≠ [] →
      verify_policy env b p ts d =
        .gateError ⟨"subject digest mismatch", "ERR_POLICY_DENIED",
                    .dsubjects d (loopMismatches env d (b.attestations.getD []))⟩) ∧
    (∀ (msg eid ex : String) (obs : List String),
      verify_policy env b p ts d = .gateError ⟨msg, eid, .dsubjects ex obs⟩ →
      ∀ a ∈ b.attestations.getD [],
        AttValid env (distinctList p.allowedSigners) (trust_store_keys ts) a) := by
  constructor
  · exact fun hs hq hl hv hm => verify_policy_subjects_deny env b p ts d hs hq hl hv hm
  · exact fun msg eid ex obs h =>
      (verify_policy_subjects_inv env b p ts d msg eid ex obs h).1

/-- Witness for claim C5: the concrete mismatching bundle denies with
`expected = "sha256:d1"` and `observed = ["beef"]`. -/
theorem c5_subject_binding_witness :
    verify_policy stdEnv (mkBundle [attMismatch]) pol1 ts1 dg1 =
      .gateError ⟨"subject digest mismatch", "ERR_POLICY_DENIED",
                  .dsubjects dg1 (loopMismatches stdEnv dg1
                    ((mkBundle [attMismatch]).attestations.getD []))⟩ ∧
    loopMismatches stdEnv dg1 ((mkBundle [attMismatch]).attestations.getD []) = ["beef"] :=
  ⟨(c5_subject_binding stdEnv (mkBundle [attMismatch]) pol1 ts1 dg1).1
     (by decide) (by decide) (by decide) (by decide) (by decide),
   by decide⟩

/-- Claim C6: once the bundle envelope passes the structural checks,
evaluation counts the distinct `logId` values across `logEntries` and,
whenever that count is below `policy.logQuorum` (defaulting to 1 when
absent), denies with `ERR_POLICY_DENIED` and details `{required, observed}`
— for every oracle environment and every attestation content, i.e. before
any attestation is processed. -/
theorem c6_log_quorum_denial (env : PyEnv) (b : Bundle) (p : Policy)
    (ts : TrustStore) (d : String)
    (hs : sanity_check_bundle b = none)
    (hq : ((distinctLogIds b).length : Int) < p.logQuorum.getD 1) :
    verify_policy env b p ts d =
      .gateError ⟨"log quorum not satisfied", "ERR_POLICY_DENIED",
                  .dquorum (p.logQuorum.getD 1) (distinctLogIds b).length⟩ := by
  unfold verify_policy
  rw [hs, if_pos hq]

/-- Witness for claim C6: quorum 2 against a single distinct log id denies
with `required = 2, observed = 1`, with an attestation the environment would
validate. -/
theorem c6_log_quorum_denial_witness :
    verify_policy stdEnv bundleProv polQ2 ts1 dg1 =
      .gateError ⟨"log quorum not satisfied", "ERR_POLICY_DENIED", .dquorum 2 1⟩ :=
  c6_log_quorum_denial stdEnv bundleProv polQ2 ts1 dg1 (by decide) (by decide)

/-- Claim C7: every distinct `logId` of the bundle must be a recognized log
operator: an unrecognized one (with the earlier stages passing) yields an
`ERR_POLICY_DENIED` denial whose details carry an unrecognized `logId` of
the bundle, and a success report implies every distinct `logId` is
recognized. -/
theorem c7_recognized_logs (env : PyEnv) (b : Bundle) (p : Policy)
    (ts : TrustStore) (d : String) :
    (∀ r : Report, verify_policy env b p ts d = .report r →
      ∀ lid ∈ distinctLogIds b, lid ∈ ts.logs) ∧
    (sanity_check_bundle b = none →
      ¬ ((distinctLogIds b).length : Int) < p.logQuorum.getD 1 →
      (∃ lid0 ∈ distinctLogIds b, lid0 ∉ ts.logs) →
      ∃ lid, lid ∈ distinctLogIds b ∧ lid ∉ ts.logs ∧
        verify_policy env b p ts d =
          .gateError ⟨"unknown log operator", "ERR_POLICY_DENIED", .dlogId lid⟩) := by
  constructor
  · intro r h lid hlid
    exact (verify_policy_report_inv env b p ts d r h).2.2.1 lid hlid
  · intro hs hq hex
    have hsome : ((distinctLogIds b).find? (fun lid => decide (lid ∉ ts.logs))).isSome := by
      rw [List.find?_isSome]
      obtain ⟨lid0, hm, hn⟩ := hex
      exact ⟨lid0, hm, by simpa using hn⟩
    obtain ⟨lid, hfind⟩ := Option.isSome_iff_exists.mp hsome
    refine ⟨lid, List.mem_of_find?_eq_some hfind, by simpa using List.find?_some hfind, ?_⟩
    unfold verify_policy
    rw [hs, if_neg hq, hfind]

/-- Witness for claim C7: the success direction on the admissible bundle and
the denial direction on a bundle logged only by the unrecognized operator
`log-zz`. -/
theorem c7_recognized_logs_witness :
    (∀ lid ∈ distinctLogIds bundleProv, lid ∈ ts1.logs) ∧
    (∃ lid, lid ∈ distinctLogIds bundleBadLog ∧ lid ∉ ts1.logs ∧
      verify_policy stdEnv bundleBadLog pol1 ts1 dg1 =
        .gateError ⟨"unknown log operator", "ERR_POLICY_DENIED", .dlogId lid⟩) :=
  ⟨(c7_recognized_logs stdEnv bundleProv pol1 ts1 dg1).1
     ⟨[some "provenance"], ["k1"], ["log-a"]⟩ (by decide),
   (c7_recognized_logs stdEnv bundleBadLog pol1 ts1 dg1).2 (by decide) (by decide)
     ⟨"log-zz", by decide, by decide⟩⟩

/-- Claim C8: the Bundle Validator performs exactly the four checks in
order — media type, exact version string, present non-empty attestation
list, present non-empty log-entry list — short-circuiting on the first
failure with `ERR_POLICY_DENIED` and `details.field` naming the failing
field, and raising nothing when all four pass. -/
theorem c8_bundle_validator_checks (b : Bundle) :
    (b.mediaType ≠ some MEDIA_TYPE →
      sanity_check_bundle b =
        some ⟨"invalid mediaType", "ERR_POLICY_DENIED", .dfield "mediaType"⟩) ∧
    (b.mediaType = some MEDIA_TYPE → b.version ≠ some BUNDLE_VERSION →
      sanity_check_bundle b =
        some ⟨"unsupported bundle version", "ERR_POLICY_DENIED", .dfield "version"⟩) ∧
    (b.mediaType = some MEDIA_TYPE → b.version = some BUNDLE_VERSION →
      (b.attestations.getD []).isEmpty = true →
      sanity_check_bundle b =
        some ⟨"attestations required", "ERR_POLICY_DENIED", .dfield "attestations"⟩) ∧
    (b.mediaType = some MEDIA_TYPE → b.version = some BUNDLE_VERSION →
      (b.attestations.getD []).isEmpty = false →
      (b.logEntries.getD []).isEmpty = true →
      sanity_check_bundle b =
        some ⟨"logEntries required", "ERR_POLICY_DENIED", .dfield "logEntries"⟩) ∧
    (b.mediaType = some MEDIA_TYPE → b.version = some BUNDLE_VERSION →
      (b.attestations.getD []).isEmpty = false →
      (b.logEntries.getD []).isEmpty = false →
      sanity_check_bundle b = none) := by
  refine ⟨?_, ?_, ?_, ?_, ?_⟩
  · intro h1
    simp [sanity_check_bundle, h1]
  · intro h1 h2
    simp [sanity_check_bundle, h1, h2]
  · intro h1 h2 h3
    simp [sanity_check_bundle, h1, h2, h3]
  · intro h1 h2 h3 h4
    simp [sanity_check_bundle, h1, h2, h3, h4]
  · intro h1 h2 h3 h4
    simp [sanity_check_bundle, h1, h2, h3, h4]

/-- Witness for claim C8: the passing case on the admissible bundle and the
first-check failure on a wrong media type. -/
theorem c8_bundle_validator_checks_witness :
    sanity_check_bundle bundleProv = none ∧
    sanity_check_bundle ⟨some "nope", some BUNDLE_VERSION, some [attProv], some [⟨"log-a"⟩]⟩ =
      some ⟨"invalid mediaType", "ERR_POLICY_DENIED", .dfield "mediaType"⟩ :=
  ⟨(c8_bundle_validator_checks bundleProv).2.2.2.2
     (by decide) (by decide) (by decide) (by decide),
   (c8_bundle_validator_checks ⟨some "nope", some BUNDLE_VERSION, some [attProv],
      some [⟨"log-a"⟩]⟩).1 (by decide)⟩

/-- Counterexample to claim C9 as stated: for the empty payload string the
encoding ends with the separator space (byte 32), so "no trailing
whitespace" does not hold for every payload string. -/
theorem c9_counterexample :
    (dsse_pae PAYLOAD_TYPE "").getLast? = some 32 := by decide

/-- Claim C9 (amended): `dsse_pae` is a pure function returning exactly the
bytes `"DSSEv1" SP len(pt) SP pt SP len(pb) SP pb` — UTF-8 field bytes, each
length the decimal ASCII rendering of the field's UTF-8 byte count, a single
space between records and nothing appended after the payload bytes — so the
output ends with the payload's own final byte whenever the payload is
non-empty (hence no trailing whitespace or newline unless the payload itself
is empty or ends in whitespace). -/
theorem c9_pae_exact_encoding (pt pb : String) :
    dsse_pae pt pb =
      utf8Bytes "DSSEv1" ++ [32] ++ utf8Bytes (toString (utf8Bytes pt).length) ++ [32] ++
        utf8Bytes pt ++ [32] ++ utf8Bytes (toString (utf8Bytes pb).length) ++ [32] ++
        utf8Bytes pb ∧
    (utf8Bytes pb ≠ [] → (dsse_pae pt pb).getLast? = (utf8Bytes pb).getLast?) := by
  have htag : utf8Bytes "DSSEv1 " = utf8Bytes "DSSEv1" ++ [32] := by decide
  have heq : dsse_pae pt pb =
      utf8Bytes "DSSEv1" ++ [32] ++ utf8Bytes (toString (utf8Bytes pt).length) ++ [32] ++
        utf8Bytes pt ++ [32] ++ utf8Bytes (toString (utf8Bytes pb).length) ++ [32] ++
        utf8Bytes pb := by
    unfold dsse_pae
    rw [htag]
    simp [List.append_assoc]
  refine ⟨heq, fun hne => ?_⟩
  rw [heq]
  rw [show utf8Bytes "DSSEv1" ++ [32] ++ utf8Bytes (toString (utf8Bytes pt).length) ++ [32] ++
        utf8Bytes pt ++ [32] ++ utf8Bytes (toString (utf8Bytes pb).length) ++ [32] ++
        utf8Bytes pb =
      (utf8Bytes "DSSEv1" ++ [32] ++ utf8Bytes (toString (utf8Bytes pt).length) ++ [32] ++
        utf8Bytes pt ++ [32] ++ utf8Bytes (toString (utf8Bytes pb).length) ++ [32]) ++
        utf8Bytes pb from rfl]
  exact List.getLast?_append_of_ne_nil _ hne

/-- Witness for claim C9: the encoding equation and the final-byte property
at the fixed payload type and a concrete non-empty payload. -/
theorem c9_pae_exact_encoding_witness :
    dsse_pae PAYLOAD_TYPE "eyJ9" =
      utf8Bytes "DSSEv1" ++ [32] ++
        utf8Bytes (toString (utf8Bytes PAYLOAD_TYPE).length) ++ [32] ++
        utf8Bytes PAYLOAD_TYPE ++ [32] ++
        utf8Bytes (toString (utf8Bytes "eyJ9").length) ++ [32] ++
        utf8Bytes "eyJ9" ∧
    (dsse_pae PAYLOAD_TYPE "eyJ9").getLast? = (utf8Bytes "eyJ9").getLast? :=
  ⟨(c9_pae_exact_encoding PAYLOAD_TYPE "eyJ9").1,
   (c9_pae_exact_encoding PAYLOAD_TYPE "eyJ9").2 (by decide)⟩

/-- Claim C10: a success report's `signers` field is exactly the sorted set
of non-empty keyids recorded while scanning each attestation's signatures in
order up to and including the first validated one — so it may contain
keyids outside `allowedSigners` and omits keyids listed after the first
valid signature. -/
theorem c10_report_signers (env : PyEnv) (b : Bundle) (p : Policy)
    (ts : TrustStore) (d : String) (r : Report)
    (h : verify_policy env b p ts d = .report r) :
    r.signers = sortStrings (loopSigners (distinctList p.allowedSigners)
      (trust_store_keys ts) (b.attestations.getD []) []) :=
  (verify_policy_report_inv env b p ts d r h).2.2.2.2.2.2.2.1

/-- Witness for claim C10: the report of the concrete run whose attestation
lists a disallowed keyid before the valid `k1` signature and another keyid
after it — `signers = ["k1", "other"]`, containing `other` (not allowed) and
omitting `after`. -/
theorem c10_report_signers_witness :
    (⟨[some "provenance"], ["k1", "other"], ["log-a"]⟩ : Report).signers =
      sortStrings (loopSigners (distinctList pol1.allowedSigners) (trust_store_keys ts1)
        ((mkBundle [attExtraSigs]).attestations.getD []) []) ∧
    "other" ∉ pol1.allowedSigners ∧
    "after" ∉ (⟨[some "provenance"], ["k1", "other"], ["log-a"]⟩ : Report).signers :=
  ⟨c10_report_signers stdEnv (mkBundle [attExtraSigs]) pol1 ts1 dg1
     ⟨[some "provenance"], ["k1", "other"], ["log-a"]⟩ (by decide),
   by decide, by decide⟩

end Svalinn
